import Mathlib

/-!
# Checkout flow of the e-commerce API

A shallow embedding of `src/controllers/paymentController.js`,
`src/controllers/cartController.js` and the schemas of `src/models/Order.js`
and `src/models/Product.js`.

Conventions of the embedding:

* the document store is an explicit value `Store` passed through every handler;
  a collection is a list of documents in insertion order, `findOne` returns the
  first match and single-document updates touch the first match;
* JavaScript numbers are integers (`Int`), object ids are natural numbers;
* what the runtime supplies to a handler (the gateway's answer, a generated
  object id, the payment reference, the clock) is an explicit argument;
* a handler returns its HTTP response, the store it leaves behind and the list
  of store and gateway calls it issued, in order;
* a thrown exception is caught by the handler's `catch` block, which answers
  500 and leaves the writes already done in place. Apart from schema validation
  and unique indexes, store calls do not fail.
-/

namespace Shop

abbrev ObjectId := Nat

/-! ## Documents -/

/-- Product document (`models/Product.js`). -/
structure Product where
  _id : ObjectId
  name : String
  description : String
  price : Int
  quantity : Int
  userId : ObjectId
  deriving DecidableEq, Repr

/-- One line of a cart. -/
structure CartItem where
  productId : ObjectId
  quantity : Int
  deriving DecidableEq, Repr

/-- Modelled from the spec: the Cart document, whose schema `models/Cart.js` is
not among the sources. A cart belongs to one user and holds lines of
(product reference, desired quantity). -/
structure Cart where
  _id : ObjectId
  userId : ObjectId
  items : List CartItem
  deriving DecidableEq, Repr

/-- The `paymentStatus` enum of `orderSchema`. -/
inductive PaymentStatus where
  | pending
  | completed
  | failed
  | cancelled
  deriving DecidableEq, Repr

/-- Line item of an order (`orderItemSchema`). -/
structure OrderItem where
  productId : ObjectId
  quantity : Int
  price : Int
  deriving DecidableEq, Repr

/-- Order document (`orderSchema`). -/
structure Order where
  _id : ObjectId
  userId : ObjectId
  items : List OrderItem
  totalAmount : Int
  paymentStatus : PaymentStatus
  paymentReference : String
  flutterwaveRef : Option String
  customerEmail : String
  customerPhone : String
  shippingAddress : String
  createdAt : Nat
  paidAt : Option Nat
  deriving DecidableEq, Repr

/-- The three collections the handlers touch. -/
structure Store where
  products : List Product
  carts : List Cart
  orders : List Order
  deriving DecidableEq, Repr

/-! ## Responses and the call trace -/

/-- HTTP response: status code, the `message` of the JSON body (empty for
`.end()`), and the two extra fields of a successful initiation. -/
structure Response where
  status : Nat
  message : String
  paymentUrl : Option String
  reference : Option String
  deriving DecidableEq, Repr

/-- Response carrying only a status and a message. -/
def reply (status : Nat) (message : String) : Response :=
  ⟨status, message, none, none⟩

/-- The answer of every `catch` block of the two JSON controllers. -/
def serverError : Response := reply 500 "Server error"

/-- A store or gateway call issued by a handler. -/
inductive Effect where
  | cartFindOne (userId : ObjectId)
  | cartSave (cart : Cart)
  | cartFindOneAndUpdate (userId : ObjectId)
  | productFindById (id : ObjectId)
  | productFindByIdAndUpdate (id : ObjectId) (inc : Int)
  | productSave (product : Product)
  | orderFindOne (paymentReference : String)
  | orderSave (order : Order)
  | orderFindByIdAndDelete (id : ObjectId)
  | axiosPost (tx_ref : String) (amount : Int)
  | axiosGet (tx_ref : String)
  deriving DecidableEq, Repr

/-- What a handler run produces. -/
structure Outcome where
  response : Response
  store : Store
  trace : List Effect
  deriving DecidableEq, Repr

/-! ## Collection primitives -/

/-- Apply `f` to the first element satisfying `p`; the list is unchanged when
there is none. -/
def updateFirst {α : Type} (p : α → Bool) (f : α → α) : List α → List α
  | [] => []
  | x :: xs => if p x then f x :: xs else x :: updateFirst p f xs

/-- Remove the first element satisfying `p`. -/
def removeFirst {α : Type} (p : α → Bool) : List α → List α
  | [] => []
  | x :: xs => if p x then xs else x :: removeFirst p xs

/-- `Product.findById(id)`. -/
def Product.findById (products : List Product) (id : ObjectId) : Option Product :=
  products.find? (fun p => p._id == id)

/-- `Product.findByIdAndUpdate(id, { $inc: { quantity: inc } })`: no validators
run on this path, so the `min: 0` of the schema is not checked. -/
def Product.findByIdAndUpdate (products : List Product) (id : ObjectId) (inc : Int) :
    List Product :=
  updateFirst (fun p => p._id == id) (fun p => { p with quantity := p.quantity + inc }) products

/-- `Cart.findOne({ userId })`. -/
def Cart.findOne (carts : List Cart) (userId : ObjectId) : Option Cart :=
  carts.find? (fun c => c.userId == userId)

/-- `Cart.findOneAndUpdate({ userId }, { items: [] })`. -/
def Cart.findOneAndUpdate (carts : List Cart) (userId : ObjectId) : List Cart :=
  updateFirst (fun c => c.userId == userId) (fun c => { c with items := [] }) carts

/-- `Order.findOne({ paymentReference })`. -/
def Order.findOne (orders : List Order) (paymentReference : String) : Option Order :=
  orders.find? (fun o => o.paymentReference == paymentReference)

/-- Schema validation run by `order.save()`: every line item has `quantity`
at least 1 (`min: 1` in `orderItemSchema`). The `required` paths are present by
typing. -/
def Order.valid (o : Order) : Bool :=
  o.items.all (fun i => decide (1 ≤ i.quantity))

/-- `order.save()` of a new document: rejected by validation, by the unique
index on `_id` or by the unique index on `paymentReference`; otherwise the
document is appended. -/
def Order.insert (orders : List Order) (o : Order) : Option (List Order) :=
  if o.valid && !orders.any (fun x => x._id == o._id)
      && !orders.any (fun x => x.paymentReference == o.paymentReference)
  then some (orders ++ [o]) else none

/-- `order.save()` of a loaded document `o` on which some paths were assigned:
validation runs on the whole document, then the assigned paths, given as
`write`, are written to the stored document with the same `_id`. -/
def Order.save (orders : List Order) (o : Order) (write : Order → Order) :
    Option (List Order) :=
  if o.valid then some (updateFirst (fun x => x._id == o._id) write orders) else none

/-- The assignments of lines 124-126 and 223-225. -/
def Order.markCompleted (flw_ref : Option String) (now : Nat) (x : Order) : Order :=
  { x with paymentStatus := .completed, flutterwaveRef := flw_ref, paidAt := some now }

/-- The assignment of line 148. -/
def Order.markFailed (x : Order) : Order :=
  { x with paymentStatus := .failed }

/-- `Order.findByIdAndDelete(id)`. -/
def Order.findByIdAndDelete (orders : List Order) (id : ObjectId) : List Order :=
  removeFirst (fun x => x._id == id) orders

/-- Modelled from the spec: validation run by `cart.save()`, whose schema
`models/Cart.js` is not among the sources: every line has a desired quantity of
at least 1. -/
def Cart.valid (c : Cart) : Bool :=
  c.items.all (fun i => decide (1 ≤ i.quantity))

/-- `cart.save()` of a new cart. -/
def Cart.insert (carts : List Cart) (c : Cart) : Option (List Cart) :=
  if c.valid && !carts.any (fun x => x._id == c._id) then some (carts ++ [c]) else none

/-- `cart.save()` of a loaded cart whose `items` were modified. -/
def Cart.save (carts : List Cart) (c : Cart) : Option (List Cart) :=
  if c.valid then
    some (updateFirst (fun x => x._id == c._id) (fun x => { x with items := c.items }) carts)
  else none

/-! ## Requests and what the runtime supplies -/

/-- The authenticated user attached to a request (`req.user`). -/
structure User where
  _id : ObjectId
  name : String
  email : String
  deriving DecidableEq, Repr

/-- Request of `initiatePayment`. -/
structure InitiateRequest where
  user : User
  shippingAddress : String
  phone : String
  deriving DecidableEq, Repr

/-- Answer of the gateway to `axios.post(.../v3/payments)`: the call rejects
(network error or a non-2xx HTTP status), or resolves with `response.data`
holding `status`, `message` and, when `data` is present, `data.link`. -/
inductive InitiateAnswer where
  | threw
  | responded (status : String) (link : Option String) (message : String)
  deriving DecidableEq, Repr

/-- Values generated while `initiatePayment` runs: the `_id` of the new order,
the payment reference built from `Date.now()` and `uuidv4()`, the clock read
by the `createdAt` default, and the gateway's answer. -/
structure InitiateEnv where
  orderId : ObjectId
  paymentReference : String
  now : Nat
  answer : InitiateAnswer
  deriving DecidableEq, Repr

/-- The `data` object of the gateway's verification answer. -/
structure VerifyData where
  status : String
  flw_ref : Option String
  deriving DecidableEq, Repr

/-- Answer of the gateway to `axios.get(.../verify_by_reference)`. -/
inductive VerifyAnswer where
  | threw
  | responded (status : String) (data : Option VerifyData)
  deriving DecidableEq, Repr

/-- Values supplied while `verifyPayment` runs. -/
structure VerifyEnv where
  now : Nat
  answer : VerifyAnswer
  deriving DecidableEq, Repr

/-- The `data` object of a webhook envelope. -/
structure WebhookData where
  tx_ref : String
  amount : Int
  status : String
  flw_ref : Option String
  deriving DecidableEq, Repr

/-- Webhook envelope (`req.body`); `event` is `none` when the field is absent. -/
structure WebhookPayload where
  event : Option String
  data : Option WebhookData
  deriving DecidableEq, Repr

/-- Webhook request: the `verif-hash` header, when present, and the body. -/
structure WebhookRequest where
  signature : Option String
  body : WebhookPayload
  deriving DecidableEq, Repr

/-- Process configuration read by the webhook: `process.env.FLW_SECRET_HASH`. -/
structure Config where
  secretHash : Option String
  deriving DecidableEq, Repr

/-! ## paymentController.js -/

/-- A cart line after `.populate('items.productId')`: the referenced product
document, or `none` (JavaScript `null`) when no such product exists. -/
structure PopulatedItem where
  productId : Option Product
  quantity : Int
  deriving DecidableEq, Repr

/-- `.populate('items.productId')` on the lines of a cart. -/
def populate (products : List Product) (items : List CartItem) : List PopulatedItem :=
  items.map (fun i => ⟨Product.findById products i.productId, i.quantity⟩)

/-- Result of the stock validation loop of `initiatePayment`: it ran to the
end (carrying the lines it went over, each with its populated product), it
returned 400 for the named product, or it threw on a `null` product. -/
inductive StockCheck where
  | passed (lines : List (Product × Int))
  | insufficient (name : String)
  | threw
  deriving DecidableEq, Repr

/-- The loop `for (let item of cart.items)` of `initiatePayment` (lines 19-26),
with the lookups it issues. -/
def validateStock (products : List Product) : List PopulatedItem → List Effect × StockCheck
  | [] => ([], .passed [])
  | item :: rest =>
    match item.productId with
    | none => ([], .threw)
    | some populated =>
      match Product.findById products populated._id with
      | none => ([.productFindById populated._id], .threw)
      | some product =>
        if product.quantity < item.quantity then
          ([.productFindById populated._id], .insufficient product.name)
        else
          match validateStock products rest with
          | (t, .passed lines) =>
            (.productFindById populated._id :: t, .passed ((populated, item.quantity) :: lines))
          | (t, r) => (.productFindById populated._id :: t, r)

/-- The `reduce` of lines 29-31. -/
def totalAmount (lines : List (Product × Int)) : Int :=
  lines.foldl (fun total item => total + item.1.price * item.2) 0

/-- The `new Order({...})` of lines 37-49; `paymentStatus` takes its schema
default. -/
def newOrder (env : InitiateEnv) (req : InitiateRequest) (lines : List (Product × Int)) : Order :=
  { _id := env.orderId
    userId := req.user._id
    items := lines.map (fun item => ⟨item.1._id, item.2, item.1.price⟩)
    totalAmount := totalAmount lines
    paymentStatus := .pending
    paymentReference := env.paymentReference
    flutterwaveRef := none
    customerEmail := req.user.email
    customerPhone := req.phone
    shippingAddress := req.shippingAddress
    createdAt := env.now
    paidAt := none }

/-- `initiatePayment` (lines 7-101). -/
def initiatePayment (env : InitiateEnv) (s : Store) (req : InitiateRequest) : Outcome :=
  let userId := req.user._id
  match Cart.findOne s.carts userId with
  | none => ⟨reply 400 "Cart is empty", s, [.cartFindOne userId]⟩
  | some cart =>
    if cart.items.length = 0 then ⟨reply 400 "Cart is empty", s, [.cartFindOne userId]⟩
    else
      match validateStock s.products (populate s.products cart.items) with
      | (t, .threw) => ⟨serverError, s, .cartFindOne userId :: t⟩
      | (t, .insufficient name) =>
        ⟨reply 400 ("Insufficient stock for " ++ name), s, .cartFindOne userId :: t⟩
      | (t, .passed lines) =>
        let order := newOrder env req lines
        match Order.insert s.orders order with
        | none => ⟨serverError, s, .cartFindOne userId :: t ++ [.orderSave order]⟩
        | some orders1 =>
          let s1 : Store := { s with orders := orders1 }
          let t1 := .cartFindOne userId :: t ++
            [.orderSave order, .axiosPost env.paymentReference order.totalAmount]
          match env.answer with
          | .threw => ⟨serverError, s1, t1⟩
          | .responded status link _ =>
            if status = "success" then
              match link with
              | none => ⟨serverError, s1, t1⟩
              | some url =>
                ⟨⟨200, "Payment initialized successfully", some url, some env.paymentReference⟩,
                  s1, t1⟩
            else
              ⟨reply 400 "Payment initialization failed",
                { s1 with orders := Order.findByIdAndDelete s1.orders order._id },
                t1 ++ [.orderFindByIdAndDelete order._id]⟩

/-- The loop `for (let item of order.items)` that decrements stock
(lines 130-135 and 229-234). -/
def decrementStock (products : List Product) (items : List OrderItem) : List Product :=
  items.foldl (fun ps item => Product.findByIdAndUpdate ps item.productId (-item.quantity))
    products

/-- The store calls issued by `decrementStock`. -/
def decrementTrace (items : List OrderItem) : List Effect :=
  items.map (fun item => .productFindByIdAndUpdate item.productId (-item.quantity))

/-- The completion block shared, statement for statement, by `verifyPayment`
(lines 124-141) and `handleWebhook` (lines 223-240): assign the status fields,
save the order, decrement the stock of every line, clear the owner's cart.
`none` when `order.save()` throws. -/
def complete (s : Store) (order : Order) (flw_ref : Option String) (now : Nat) :
    Option Store × List Effect :=
  let order1 := Order.markCompleted flw_ref now order
  match Order.save s.orders order1 (Order.markCompleted flw_ref now) with
  | none => (none, [.orderSave order1])
  | some orders1 =>
    (some { products := decrementStock s.products order1.items
            carts := Cart.findOneAndUpdate s.carts order1.userId
            orders := orders1 },
      .orderSave order1 :: decrementTrace order1.items ++ [.cartFindOneAndUpdate order1.userId])

/-- The `else` branch of `verifyPayment` (lines 148-150). -/
def markFailed (s : Store) (order : Order) (reference : String) : Outcome :=
  let order1 := Order.markFailed order
  let t := [Effect.orderFindOne reference, .axiosGet reference, .orderSave order1]
  match Order.save s.orders order1 Order.markFailed with
  | none => ⟨serverError, s, t⟩
  | some orders1 => ⟨reply 400 "Payment verification failed", { s with orders := orders1 }, t⟩

/-- `verifyPayment` (lines 103-157). The 200 body also carries the order, which
the response model leaves out. -/
def verifyPayment (env : VerifyEnv) (s : Store) (reference : String) : Outcome :=
  match Order.findOne s.orders reference with
  | none => ⟨reply 404 "Order not found", s, [.orderFindOne reference]⟩
  | some order =>
    match env.answer with
    | .threw => ⟨serverError, s, [.orderFindOne reference, .axiosGet reference]⟩
    | .responded status data =>
      if status = "success" then
        match data with
        | none => ⟨serverError, s, [.orderFindOne reference, .axiosGet reference]⟩
        | some d =>
          if d.status = "successful" then
            match complete s order d.flw_ref env.now with
            | (none, t) => ⟨serverError, s, .orderFindOne reference :: .axiosGet reference :: t⟩
            | (some s1, t) =>
              ⟨reply 200 "Payment verified successfully", s1,
                .orderFindOne reference :: .axiosGet reference :: t⟩
          else markFailed s order reference
      else markFailed s order reference

/-- The guard `!signature || (signature !== secretHash)` of `handleWebhook`:
an absent or empty header is falsy, and a present one must equal the
configured secret. -/
def signatureRejected (cfg : Config) (signature : Option String) : Bool :=
  match signature with
  | none => true
  | some sig => sig == "" || cfg.secretHash != some sig

/-- `handleWebhook` (lines 192-251). -/
def handleWebhook (cfg : Config) (now : Nat) (s : Store) (req : WebhookRequest) : Outcome :=
  if signatureRejected cfg req.signature then ⟨reply 401 "", s, []⟩
  else if req.body.event = some "charge.completed" then
    match req.body.data with
    | none => ⟨reply 500 "", s, []⟩
    | some d =>
      match Order.findOne s.orders d.tx_ref with
      | none => ⟨reply 404 "", s, [.orderFindOne d.tx_ref]⟩
      | some order =>
        if d.amount = order.totalAmount ∧ d.status = "successful" then
          match complete s order d.flw_ref now with
          | (none, t) => ⟨reply 500 "", s, .orderFindOne d.tx_ref :: t⟩
          | (some s1, t) => ⟨reply 200 "", s1, .orderFindOne d.tx_ref :: t⟩
        else ⟨reply 200 "", s, [.orderFindOne d.tx_ref]⟩
  else ⟨reply 200 "", s, []⟩

/-! ## cartController.js -/

/-- Request of `addToCart`: `quantity` is `none` when the body omits it. -/
structure AddToCartRequest where
  user : User
  productId : ObjectId
  quantity : Option Int
  deriving DecidableEq, Repr

/-- Request of `updateCartItem`. -/
structure UpdateCartItemRequest where
  user : User
  productId : ObjectId
  quantity : Int
  deriving DecidableEq, Repr

/-- Assignment `cart.items[index].quantity = quantity`, where `index` is the
position `findIndex` returned for `productId`: the first line of that product. -/
def setQuantity (items : List CartItem) (productId : ObjectId) (quantity : Int) :
    List CartItem :=
  updateFirst (fun i => i.productId == productId) (fun i => { i with quantity := quantity }) items

/-- Answer after `cart.save()` of a loaded cart: 200 with the given message, or
the `catch` block when validation throws. -/
def saveCart (s : Store) (cart : Cart) (pre : List Effect) (message : String) : Outcome :=
  match Cart.save s.carts cart with
  | none => ⟨serverError, s, pre ++ [.cartSave cart]⟩
  | some carts1 => ⟨reply 200 message, { s with carts := carts1 }, pre ++ [.cartSave cart]⟩

/-- `addToCart` (lines 28-74); `cartId` is the `_id` generated for a new cart. -/
def addToCart (cartId : ObjectId) (s : Store) (req : AddToCartRequest) : Outcome :=
  let productId := req.productId
  let quantity := req.quantity.getD 1
  match Product.findById s.products productId with
  | none => ⟨reply 404 "Product not found", s, [.productFindById productId]⟩
  | some product =>
    if product.quantity < quantity then
      ⟨reply 400 "Insufficient stock", s, [.productFindById productId]⟩
    else
      let t := [Effect.productFindById productId, .cartFindOne req.user._id]
      match Cart.findOne s.carts req.user._id with
      | none =>
        let cart : Cart := ⟨cartId, req.user._id, [⟨productId, quantity⟩]⟩
        match Cart.insert s.carts cart with
        | none => ⟨serverError, s, t ++ [.cartSave cart]⟩
        | some carts1 =>
          ⟨reply 200 "Item added to cart successfully", { s with carts := carts1 },
            t ++ [.cartSave cart]⟩
      | some cart =>
        match cart.items.find? (fun i => i.productId == productId) with
        | some existing =>
          let newQuantity := existing.quantity + quantity
          if product.quantity < newQuantity then ⟨reply 400 "Insufficient stock", s, t⟩
          else
            saveCart s { cart with items := setQuantity cart.items productId newQuantity } t
              "Item added to cart successfully"
        | none =>
          saveCart s { cart with items := cart.items ++ [⟨productId, quantity⟩] } t
            "Item added to cart successfully"

/-- `updateCartItem` (lines 76-110). -/
def updateCartItem (s : Store) (req : UpdateCartItemRequest) : Outcome :=
  let productId := req.productId
  match Product.findById s.products productId with
  | none => ⟨reply 404 "Product not found", s, [.productFindById productId]⟩
  | some product =>
    if product.quantity < req.quantity then
      ⟨reply 400 "Insufficient stock", s, [.productFindById productId]⟩
    else
      let t := [Effect.productFindById productId, .cartFindOne req.user._id]
      match Cart.findOne s.carts req.user._id with
      | none => ⟨reply 404 "Cart not found", s, t⟩
      | some cart =>
        match cart.items.find? (fun i => i.productId == productId) with
        | none => ⟨reply 404 "Item not found in cart", s, t⟩
        | some _ =>
          saveCart s { cart with items := setQuantity cart.items productId req.quantity } t
            "Cart item updated successfully"

/-! ## productController.js -/

/-- Request of `updateProduct`; a field is `none` when the body omits it. -/
structure UpdateProductRequest where
  user : User
  id : ObjectId
  name : Option String
  price : Option Int
  description : Option String
  quantity : Option Int
  deriving DecidableEq, Repr

/-- The expression `a || b` on a string field: an absent or empty `a` is falsy. -/
def orString (a : Option String) (b : String) : String :=
  match a with
  | none => b
  | some x => if x = "" then b else x

/-- The expression `a || b` on a number field: an absent or zero `a` is falsy. -/
def orNumber (a : Option Int) (b : Int) : Int :=
  match a with
  | none => b
  | some x => if x = 0 then b else x

/-- Schema validation run by `product.save()` (`productSchema`). -/
def Product.valid (p : Product) : Bool :=
  decide (3 ≤ p.name.length) && decide (p.name.length ≤ 100) &&
    decide (10 ≤ p.description.length) && decide (p.description.length ≤ 500) &&
    decide (0 ≤ p.price) && decide (0 ≤ p.quantity)

/-- `updateProduct` (lines 44-66). -/
def updateProduct (s : Store) (req : UpdateProductRequest) : Outcome :=
  match Product.findById s.products req.id with
  | none => ⟨reply 404 "Product not found", s, [.productFindById req.id]⟩
  | some product =>
    if product.userId ≠ req.user._id then
      ⟨reply 403 "You are not authorized to update this product", s, [.productFindById req.id]⟩
    else
      let product1 : Product :=
        { product with
          name := orString req.name product.name
          price := orNumber req.price product.price
          description := orString req.description product.description
          quantity := orNumber req.quantity product.quantity }
      let write : Product → Product := fun x =>
        { x with name := product1.name, price := product1.price,
                 description := product1.description, quantity := product1.quantity }
      if product1.valid then
        ⟨reply 200 "Product updated successfully",
          { s with products := updateFirst (fun x => x._id == product._id) write s.products },
          [.productFindById req.id, .productSave product1]⟩
      else ⟨serverError, s, [.productFindById req.id, .productSave product1]⟩

/-! ## Reading a trace -/

/-- The orders a run handed to `order.save()`, in order. -/
def savedOrders (trace : List Effect) : List Order :=
  trace.filterMap (fun e => match e with
    | .orderSave o => some o
    | _ => none)

/-- One call of the API, with what the runtime supplies to it. -/
inductive Call where
  | addToCart (cartId : ObjectId) (req : AddToCartRequest)
  | updateCartItem (req : UpdateCartItemRequest)
  | initiatePayment (env : InitiateEnv) (req : InitiateRequest)
  | verifyPayment (env : VerifyEnv) (reference : String)
  | handleWebhook (now : Nat) (req : WebhookRequest)
  deriving DecidableEq, Repr

/-- Run one call. -/
def step (cfg : Config) (s : Store) : Call → Outcome
  | .addToCart cartId req => addToCart cartId s req
  | .updateCartItem req => updateCartItem s req
  | .initiatePayment env req => initiatePayment env s req
  | .verifyPayment env reference => verifyPayment env s reference
  | .handleWebhook now req => handleWebhook cfg now s req

/-- Run a sequence of calls one after the other and return the final store. -/
def run (cfg : Config) (s : Store) : List Call → Store
  | [] => s
  | c :: cs => run cfg (step cfg s c).store cs

/-! ## Vocabulary of the statements -/

/-- Total quantity the line items order of product `pid`. -/
def orderedQuantity (items : List OrderItem) (pid : ObjectId) : Int :=
  ((items.filter (fun i => i.productId == pid)).map (fun i => i.quantity)).sum

/-- Product `p` with its stock lowered by `n`. -/
def Product.less (p : Product) (n : Int) : Product :=
  { p with quantity := p.quantity - n }

/-- The store the completion block leaves behind when the save succeeds. -/
def completedStore (s : Store) (o : Order) (flw_ref : Option String) (now : Nat) : Store :=
  { products := decrementStock s.products o.items
    carts := Cart.findOneAndUpdate s.carts o.userId
    orders := updateFirst (fun x => x._id == o._id) (Order.markCompleted flw_ref now) s.orders }

/-- What the order collection guarantees of its documents: `_id` is unique
(the index every collection has) and each document passed schema validation. -/
def Store.ordersOk (s : Store) : Prop :=
  (s.orders.map (fun o => o._id)).Nodup ∧ ∀ o ∈ s.orders, o.valid = true

/-- What the cart collection guarantees of its documents: `_id` is unique, each
cart passed schema validation, and a cart has at most one line per product. -/
def Store.cartsOk (s : Store) : Prop :=
  (s.carts.map (fun c => c._id)).Nodup ∧
    ∀ c ∈ s.carts, c.valid = true ∧ (c.items.map (fun i => i.productId)).Nodup

/-! ## Sample data -/

/-- A customer. -/
def ada : User := ⟨7, "Ada", "ada@example.com"⟩

/-- A product with five units in stock. -/
def lamp : Product := ⟨1, "Lamp", "A desk lamp with a shade", 10, 5, 9⟩

/-- An order of two lamps, in the given status. -/
def lampOrder (status : PaymentStatus) : Order :=
  { _id := 100, userId := 7, items := [⟨1, 2, 10⟩], totalAmount := 20, paymentStatus := status,
    paymentReference := "PAY_1", flutterwaveRef := none, customerEmail := "ada@example.com",
    customerPhone := "080", shippingAddress := "1 Main St", createdAt := 0, paidAt := none }

/-- The gateway confirms the transaction. -/
def verifyOk : VerifyEnv := ⟨5, .responded "success" (some ⟨"successful", some "FLW-1"⟩)⟩

/-- Webhook configuration with a shared secret. -/
def sampleConfig : Config := ⟨some "s3cret"⟩

/-- A correctly signed notification that the charge for `PAY_1` completed. -/
def chargeCompleted : WebhookRequest :=
  ⟨some "s3cret", ⟨some "charge.completed", some ⟨"PAY_1", 20, "successful", some "FLW-1"⟩⟩⟩

/-- An initiation by Ada whose gateway call answers as given. -/
def adaInitiates (orderId : ObjectId) (reference : String) (answer : InitiateAnswer) : Call :=
  .initiatePayment ⟨orderId, reference, 0, answer⟩ ⟨ada, "1 Main St", "080"⟩

/-- The gateway accepts the payment request and returns a payment link. -/
def linkOk : InitiateAnswer := .responded "success" (some "https://pay.example/1") "Hosted Link"

/-- Ada's checkout request. -/
def adaCheckout : InitiateRequest := ⟨ada, "1 Main St", "080"⟩

section Lists

variable {α : Type}

theorem updateFirst_map {β : Type} (p : α → Bool) (f : α → α) (g : α → β)
    (hg : ∀ x, g (f x) = g x) (l : List α) : (updateFirst p f l).map g = l.map g := by
  induction l with
  | nil => rfl
  | cons x xs ih =>
    unfold updateFirst
    split <;> simp [hg, ih]

theorem find_updateFirst_same (p : α → Bool) (f : α → α) (hp : ∀ x, p (f x) = p x)
    (l : List α) : (updateFirst p f l).find? p = (l.find? p).map f := by
  induction l with
  | nil => rfl
  | cons x xs ih =>
    unfold updateFirst
    by_cases hx : p x = true
    · simp [hx, hp]
    · simp [hx, ih]

theorem find_updateFirst_other (p q : α → Bool) (f : α → α) (hq : ∀ x, q (f x) = q x)
    (hpq : ∀ x, p x = true → q x = false) (l : List α) :
    (updateFirst p f l).find? q = l.find? q := by
  induction l with
  | nil => rfl
  | cons x xs ih =>
    unfold updateFirst
    by_cases hx : p x = true
    · simp [hx, hq, hpq x hx]
    · by_cases hqx : q x = true
      · simp [hx, hqx]
      · simp [hx, hqx, ih]

theorem updateFirst_idem (p : α → Bool) (f : α → α) (hp : ∀ x, p (f x) = p x)
    (hf : ∀ x, f (f x) = f x) (l : List α) :
    updateFirst p f (updateFirst p f l) = updateFirst p f l := by
  induction l with
  | nil => rfl
  | cons x xs ih =>
    by_cases hx : p x = true
    · simp [updateFirst, hx, hp, hf]
    · simp [updateFirst, hx, ih]

end Lists

theorem Product.less_zero (p : Product) : p.less 0 = p := by
  simp [Product.less]

theorem Product.less_less (p : Product) (a b : Int) : (p.less a).less b = p.less (a + b) := by
  simp [Product.less, sub_sub]

theorem findById_findByIdAndUpdate (ps : List Product) (id pid : ObjectId) (inc : Int) :
    Product.findById (Product.findByIdAndUpdate ps id inc) pid =
      (Product.findById ps pid).map (fun p => if id = pid then p.less (-inc) else p) := by
  unfold Product.findById Product.findByIdAndUpdate
  by_cases h : id = pid
  · subst h
    rw [find_updateFirst_same _ _ (fun _ => by rfl)]
    simp [Product.less]
  · rw [find_updateFirst_other _ _ _ (fun _ => by rfl)]
    · simp [h]
    · intro x hx
      simp only [beq_iff_eq] at hx
      simp [hx, h]

theorem orderedQuantity_cons (i : OrderItem) (rest : List OrderItem) (pid : ObjectId) :
    orderedQuantity (i :: rest) pid =
      (if i.productId = pid then i.quantity else 0) + orderedQuantity rest pid := by
  unfold orderedQuantity
  by_cases h : i.productId = pid <;> simp [List.filter_cons, h]

theorem findById_decrementStock (items : List OrderItem) (ps : List Product) (pid : ObjectId) :
    Product.findById (decrementStock ps items) pid =
      (Product.findById ps pid).map (fun p => p.less (orderedQuantity items pid)) := by
  induction items generalizing ps with
  | nil => simp [decrementStock, orderedQuantity, Product.less]
  | cons i rest ih =>
    have hstep : decrementStock ps (i :: rest) =
        decrementStock (Product.findByIdAndUpdate ps i.productId (-i.quantity)) rest := rfl
    rw [hstep, ih, findById_findByIdAndUpdate, Option.map_map, orderedQuantity_cons]
    congr 1
    funext p
    by_cases h : i.productId = pid
    · simp [h, Product.less_less]
    · simp [h]

theorem orderedQuantity_eq_zero (items : List OrderItem) (pid : ObjectId)
    (h : ∀ i ∈ items, i.productId ≠ pid) : orderedQuantity items pid = 0 := by
  induction items with
  | nil => rfl
  | cons i rest ih =>
    rw [orderedQuantity_cons, ih (fun j hj => h j (List.mem_cons_of_mem _ hj))]
    simp [h i (List.mem_cons_self _ _)]

theorem findOne_findOneAndUpdate (carts : List Cart) (uid uid2 : ObjectId) :
    Cart.findOne (Cart.findOneAndUpdate carts uid) uid2 =
      (Cart.findOne carts uid2).map (fun c => if uid = uid2 then { c with items := [] } else c) := by
  unfold Cart.findOne Cart.findOneAndUpdate
  by_cases h : uid = uid2
  · subst h
    rw [find_updateFirst_same _ _ (fun _ => by rfl)]
    simp
  · rw [find_updateFirst_other _ _ _ (fun _ => by rfl)]
    · simp [h]
    · intro x hx
      simp only [beq_iff_eq] at hx
      simp [hx, h]

/-- Writing fields other than `_id` and `paymentReference` to the stored copy of
a looked-up order shows in the next lookup by reference, provided order ids are
unique. -/
theorem findOne_updateFirst_id (orders : List Order) (r : String) (o : Order) (f : Order → Order)
    (href : ∀ x, (f x).paymentReference = x.paymentReference)
    (hfind : Order.findOne orders r = some o) (hnodup : (orders.map (fun x => x._id)).Nodup) :
    Order.findOne (updateFirst (fun x => x._id == o._id) f orders) r = some (f o) := by
  unfold Order.findOne at *
  induction orders with
  | nil => simp at hfind
  | cons x xs ih =>
    rw [List.map_cons, List.nodup_cons] at hnodup
    by_cases hx : x.paymentReference = r
    · have hxo : x = o := by simpa [List.find?_cons, hx] using hfind
      subst hxo
      simp [updateFirst, List.find?_cons, href, hx]
    · have hrest : List.find? (fun o => o.paymentReference == r) xs = some o := by
        simpa [List.find?_cons, hx] using hfind
      have hmem : o ∈ xs := List.mem_of_find?_eq_some hrest
      have hne : x._id ≠ o._id := by
        intro he
        apply hnodup.1
        rw [he]
        exact List.mem_map_of_mem (fun x => x._id) hmem
      have hb : (x.paymentReference == r) = false := by simpa using hx
      simp only [updateFirst, beq_iff_eq, hne, if_false, List.find?_cons, hb]
      exact ih hrest hnodup.2

/-! ## Closed forms of the completion paths -/

theorem complete_of_valid (s : Store) (o : Order) (flw_ref : Option String) (now : Nat)
    (hvalid : o.valid = true) :
    (complete s o flw_ref now).1 = some (completedStore s o flw_ref now) := by
  have hv : (Order.markCompleted flw_ref now o).valid = true := hvalid
  simp only [complete, Order.save, hv, if_true]
  rfl

theorem verifyPayment_success (env : VerifyEnv) (s : Store) (r : String) (o : Order)
    (flw : Option String) (hfind : Order.findOne s.orders r = some o) (hvalid : o.valid = true)
    (hanswer : env.answer = .responded "success" (some ⟨"successful", flw⟩)) :
    (verifyPayment env s r).response = reply 200 "Payment verified successfully" ∧
      (verifyPayment env s r).store = completedStore s o flw env.now := by
  have hc := complete_of_valid s o flw env.now hvalid
  unfold verifyPayment
  simp only [hfind, hanswer, if_true]
  cases hcomp : complete s o flw env.now with
  | mk st t =>
    rw [hcomp] at hc
    simp only at hc
    subst hc
    exact ⟨rfl, rfl⟩

theorem handleWebhook_success (cfg : Config) (now : Nat) (s : Store) (req : WebhookRequest)
    (d : WebhookData) (o : Order) (hsig : signatureRejected cfg req.signature = false)
    (hevent : req.body.event = some "charge.completed") (hdata : req.body.data = some d)
    (hfind : Order.findOne s.orders d.tx_ref = some o) (hvalid : o.valid = true)
    (hamount : d.amount = o.totalAmount) (hstatus : d.status = "successful") :
    (handleWebhook cfg now s req).response = reply 200 "" ∧
      (handleWebhook cfg now s req).store = completedStore s o d.flw_ref now := by
  have hc := complete_of_valid s o d.flw_ref now hvalid
  unfold handleWebhook
  simp only [hsig, hevent, hdata, hfind, hamount, hstatus, if_true, and_self]
  cases hcomp : complete s o d.flw_ref now with
  | mk st t =>
    rw [hcomp] at hc
    simp only at hc
    subst hc
    simp

theorem findOne_completedStore (s : Store) (r : String) (o : Order) (flw_ref : Option String)
    (now : Nat) (hfind : Order.findOne s.orders r = some o)
    (hnodup : (s.orders.map (fun x => x._id)).Nodup) :
    Order.findOne (completedStore s o flw_ref now).orders r =
      some (Order.markCompleted flw_ref now o) :=
  findOne_updateFirst_id s.orders r o _ (fun _ => by rfl) hfind hnodup

/-! ## C7: a successful verification completes the order -/

/-- C1 as stated fails: with five lamps in stock and an order of two, the
first successful `verifyPayment` leaves three lamps and the second, run on the
order it finds already completed, leaves one. -/
theorem verifyPayment_twice_counterexample :
    (verifyPayment verifyOk ⟨[lamp], [⟨50, 7, [⟨1, 2⟩]⟩], [lampOrder .pending]⟩
      "PAY_1").store =
      ⟨[{ lamp with quantity := 3 }], [⟨50, 7, []⟩],
        [{ lampOrder .completed with flutterwaveRef := some "FLW-1", paidAt := some 5 }]⟩ ∧
    (verifyPayment verifyOk
      (verifyPayment verifyOk ⟨[lamp], [⟨50, 7, [⟨1, 2⟩]⟩], [lampOrder .pending]⟩
        "PAY_1").store "PAY_1").store.products = [{ lamp with quantity := 1 }] := by
  decide

/-- C1, amended: when the gateway confirms both calls, each of two successive
runs of `verifyPayment` on reference `r` answers 200 and lowers the stock of
every product by the quantity the order holds of it, so the stock is lowered
twice in total; the second run leaves every cart as the first run left it. -/
theorem verifyPayment_twice (env1 env2 : VerifyEnv) (s : Store) (r : String) (o : Order)
    (flw1 flw2 : Option String) (hfind : Order.findOne s.orders r = some o)
    (hvalid : o.valid = true) (hnodup : (s.orders.map (fun x => x._id)).Nodup)
    (h1 : env1.answer = .responded "success" (some ⟨"successful", flw1⟩))
    (h2 : env2.answer = .responded "success" (some ⟨"successful", flw2⟩)) :
    (verifyPayment env1 s r).response.status = 200 ∧
    (verifyPayment env2 (verifyPayment env1 s r).store r).response.status = 200 ∧
    (∀ pid, Product.findById (verifyPayment env1 s r).store.products pid =
      (Product.findById s.products pid).map (fun p => p.less (orderedQuantity o.items pid))) ∧
    (∀ pid, Product.findById
        (verifyPayment env2 (verifyPayment env1 s r).store r).store.products pid =
      (Product.findById s.products pid).map
        (fun p => p.less (2 * orderedQuantity o.items pid))) ∧
    (verifyPayment env2 (verifyPayment env1 s r).store r).store.carts =
      (verifyPayment env1 s r).store.carts := by
  obtain ⟨hresp1, hstore1⟩ := verifyPayment_success env1 s r o flw1 hfind hvalid h1
  have hfind1 := findOne_completedStore s r o flw1 env1.now hfind hnodup
  obtain ⟨hresp2, hstore2⟩ := verifyPayment_success env2 (completedStore s o flw1 env1.now) r
    (Order.markCompleted flw1 env1.now o) flw2 hfind1 hvalid h2
  rw [hstore1, hresp1, hresp2, hstore2]
  refine ⟨rfl, rfl, ?_, ?_, ?_⟩
  · intro pid
    exact findById_decrementStock o.items s.products pid
  · intro pid
    show Product.findById (decrementStock (decrementStock s.products o.items) o.items) pid = _
    rw [findById_decrementStock, findById_decrementStock, Option.map_map]
    congr 1
    funext p
    simp [Product.less_less, two_mul]
  · exact updateFirst_idem _ _ (fun _ => by rfl) (fun _ => by rfl) s.carts

/-- Witness of the amended C1 on the lamp order. -/
theorem verifyPayment_twice_witness :
    Product.findById (verifyPayment verifyOk
      (verifyPayment verifyOk ⟨[lamp], [⟨50, 7, [⟨1, 2⟩]⟩], [lampOrder .pending]⟩
        "PAY_1").store "PAY_1").store.products 1 = some (lamp.less 4) :=
  have h := verifyPayment_twice verifyOk verifyOk ⟨[lamp], [⟨50, 7, [⟨1, 2⟩]⟩],
    [lampOrder .pending]⟩ "PAY_1" (lampOrder .pending) (some "FLW-1") (some "FLW-1")
    (by decide) (by decide) (by decide) rfl rfl
  by rw [h.2.2.2.1 1]; decide

/-! ## C2: a webhook for an order that is already completed -/

/-- C2 as stated fails: the order for `PAY_1` is already completed, three lamps
are left and the owner has put one lamp in the cart again; a correctly signed
`charge.completed` notification for `PAY_1` is answered 200, takes two more
lamps off the stock and empties the cart. -/
theorem handleWebhook_completed_counterexample :
    (lampOrder .completed).paymentStatus = .completed ∧
    handleWebhook sampleConfig 9
        ⟨[{ lamp with quantity := 3 }], [⟨50, 7, [⟨1, 1⟩]⟩], [lampOrder .completed]⟩
        chargeCompleted =
      ⟨reply 200 "",
        ⟨[{ lamp with quantity := 1 }], [⟨50, 7, []⟩],
          [{ lampOrder .completed with flutterwaveRef := some "FLW-1", paidAt := some 9 }]⟩,
        [.orderFindOne "PAY_1",
          .orderSave { lampOrder .completed with flutterwaveRef := some "FLW-1", paidAt := some 9 },
          .productFindByIdAndUpdate 1 (-2), .cartFindOneAndUpdate 7]⟩ := by
  decide

/-- C2, amended: a correctly signed `charge.completed` notification whose
amount equals the order total and whose status is successful is answered 200
and runs the completion effects whatever the current status of the order, also
when it is already completed: the stock of every product is lowered by the
quantity the order holds of it, products outside the order keep their stock,
and the owner's cart is left without items. -/
theorem handleWebhook_completed (cfg : Config) (now : Nat) (s : Store) (req : WebhookRequest)
    (d : WebhookData) (o : Order) (hsig : signatureRejected cfg req.signature = false)
    (hevent : req.body.event = some "charge.completed") (hdata : req.body.data = some d)
    (hfind : Order.findOne s.orders d.tx_ref = some o) (hvalid : o.valid = true)
    (hamount : d.amount = o.totalAmount) (hstatus : d.status = "successful") :
    (handleWebhook cfg now s req).response.status = 200 ∧
    (∀ pid, Product.findById (handleWebhook cfg now s req).store.products pid =
      (Product.findById s.products pid).map (fun p => p.less (orderedQuantity o.items pid))) ∧
    (∀ pid, (∀ i ∈ o.items, i.productId ≠ pid) →
      Product.findById (handleWebhook cfg now s req).store.products pid =
        Product.findById s.products pid) ∧
    (∀ uid, Cart.findOne (handleWebhook cfg now s req).store.carts uid =
      (Cart.findOne s.carts uid).map
        (fun c => if o.userId = uid then { c with items := [] } else c)) := by
  obtain ⟨hresp, hstore⟩ :=
    handleWebhook_success cfg now s req d o hsig hevent hdata hfind hvalid hamount hstatus
  rw [hresp, hstore]
  refine ⟨rfl, ?_, ?_, ?_⟩
  · intro pid
    exact findById_decrementStock o.items s.products pid
  · intro pid hpid
    show Product.findById (decrementStock s.products o.items) pid = _
    rw [findById_decrementStock, orderedQuantity_eq_zero o.items pid hpid]
    simp [Product.less_zero]
  · intro uid
    exact findOne_findOneAndUpdate s.carts o.userId uid

/-- Witness of the amended C2 on the completed lamp order. -/
theorem handleWebhook_completed_witness :
    (lampOrder .completed).paymentStatus = .completed ∧
    Product.findById (handleWebhook sampleConfig 9
      ⟨[{ lamp with quantity := 3 }], [⟨50, 7, [⟨1, 1⟩]⟩], [lampOrder .completed]⟩
      chargeCompleted).store.products 1 = some (lamp.less 4) :=
  have h := handleWebhook_completed sampleConfig 9
    ⟨[{ lamp with quantity := 3 }], [⟨50, 7, [⟨1, 1⟩]⟩], [lampOrder .completed]⟩
    chargeCompleted ⟨"PAY_1", 20, "successful", some "FLW-1"⟩ (lampOrder .completed)
    (by decide) rfl rfl (by decide) (by decide) rfl rfl
  ⟨rfl, by rw [h.2.1 1]; decide⟩

/-! ## C3: status transitions -/

theorem forall₂_updateFirst {α : Type} (R : α → α → Prop) (p : α → Bool) (f : α → α)
    (hrefl : ∀ x, R x x) (hf : ∀ x, R x (f x)) (l : List α) :
    List.Forall₂ R l (updateFirst p f l) := by
  induction l with
  | nil => exact List.Forall₂.nil
  | cons x xs ih =>
    unfold updateFirst
    split
    · exact List.Forall₂.cons (hf x) (List.forall₂_same.mpr (fun y _ => hrefl y))
    · exact List.Forall₂.cons (hrefl x) ih

theorem forall₂_self {α : Type} (R : α → α → Prop) (hrefl : ∀ x, R x x) (l : List α) :
    List.Forall₂ R l l :=
  List.forall₂_same.mpr (fun y _ => hrefl y)

theorem save_forall₂ (R : Order → Order → Prop) (hrefl : ∀ x, R x x) (w : Order → Order)
    (hw : ∀ x, R x (w x)) {orders orders1 : List Order} {o : Order}
    (hsave : Order.save orders o w = some orders1) : List.Forall₂ R orders orders1 := by
  unfold Order.save at hsave
  split at hsave
  · injection hsave with h
    rw [← h]
    exact forall₂_updateFirst R _ w hrefl hw orders
  · cases hsave

theorem complete_forall₂ (R : Order → Order → Prop) (hrefl : ∀ x, R x x)
    (hw : ∀ flw now x, R x (Order.markCompleted flw now x)) {s st : Store} {o : Order}
    {flw : Option String} {now : Nat} {t : List Effect}
    (hc : complete s o flw now = (some st, t)) : List.Forall₂ R s.orders st.orders := by
  unfold complete at hc
  cases hsave : Order.save s.orders (Order.markCompleted flw now o)
      (Order.markCompleted flw now) with
  | none => simp [hsave] at hc
  | some orders1 =>
    simp only [hsave, Prod.mk.injEq, Option.some.injEq] at hc
    rw [← hc.1]
    exact save_forall₂ R hrefl _ (hw flw now) hsave

/-- Any relation that holds between an order and itself, its completed copy
and its failed copy holds, order by order, between the orders before and after
`verifyPayment`. -/
theorem verifyPayment_forall₂ (R : Order → Order → Prop) (hrefl : ∀ x, R x x)
    (hc : ∀ flw now x, R x (Order.markCompleted flw now x))
    (hf : ∀ x, R x (Order.markFailed x)) (env : VerifyEnv) (s : Store) (r : String) :
    List.Forall₂ R s.orders (verifyPayment env s r).store.orders := by
  have hfail : ∀ o, List.Forall₂ R s.orders (markFailed s o r).store.orders := by
    intro o
    cases hsave : Order.save s.orders (Order.markFailed o) Order.markFailed with
    | none =>
      simp only [markFailed, hsave]
      exact forall₂_self _ hrefl _
    | some orders1 =>
      simp only [markFailed, hsave]
      exact save_forall₂ R hrefl Order.markFailed hf hsave
  unfold verifyPayment
  repeat' split
  all_goals first
    | exact forall₂_self _ hrefl _
    | exact hfail _
    | exact complete_forall₂ R hrefl hc (by assumption)

/-- The same for `handleWebhook`, which never marks an order failed. -/
theorem handleWebhook_forall₂ (R : Order → Order → Prop) (hrefl : ∀ x, R x x)
    (hc : ∀ flw now x, R x (Order.markCompleted flw now x)) (cfg : Config) (now : Nat)
    (s : Store) (req : WebhookRequest) :
    List.Forall₂ R s.orders (handleWebhook cfg now s req).store.orders := by
  unfold handleWebhook
  repeat' split
  all_goals first
    | exact forall₂_self _ hrefl _
    | exact complete_forall₂ R hrefl hc (by assumption)

/-- C4 fails on the code: five lamps in stock, three in Ada's cart. Checkout
is initiated and the payment verified twice, or checkout is initiated twice
from the same cart and both orders are verified; every call succeeds and either
run ends with a stock of minus one, a value the product schema (`min: 0`)
rejects: the owner's next `updateProduct` on the lamp fails in `product.save()`
and is answered 500. -/
theorem stock_goes_negative :
    (∀ p ∈ [lamp], 0 ≤ p.quantity) ∧
    (run sampleConfig ⟨[lamp], [⟨50, 7, [⟨1, 3⟩]⟩], []⟩
      [adaInitiates 100 "PAY_1" linkOk, .verifyPayment verifyOk "PAY_1",
        .verifyPayment verifyOk "PAY_1"]).products = [{ lamp with quantity := -1 }] ∧
    (run sampleConfig ⟨[lamp], [⟨50, 7, [⟨1, 3⟩]⟩], []⟩
      [adaInitiates 100 "PAY_1" linkOk, adaInitiates 101 "PAY_2" linkOk,
        .verifyPayment verifyOk "PAY_1", .verifyPayment verifyOk "PAY_2"]).products =
      [{ lamp with quantity := -1 }] ∧
    (updateProduct ⟨[{ lamp with quantity := -1 }], [], []⟩
      ⟨⟨9, "Owner", "owner@example.com"⟩, 1, none, some 12, none, none⟩).response.status =
      500 := by
  decide

/-! ## C5: compensation after a failed gateway call -/

/-- C5 fails on the code: when the gateway answers with a non-success status
the order is deleted again, but when the gateway call itself errors the handler
answers 500 from its `catch` block and the pending order stays in the store. -/
theorem initiatePayment_gateway_error_keeps_order :
    (initiatePayment ⟨100, "PAY_1", 0, .responded "error" none "Invalid key"⟩
      ⟨[lamp], [⟨50, 7, [⟨1, 2⟩]⟩], []⟩ ⟨ada, "1 Main St", "080"⟩).store.orders = [] ∧
    (initiatePayment ⟨100, "PAY_1", 0, .threw⟩
      ⟨[lamp], [⟨50, 7, [⟨1, 2⟩]⟩], []⟩ ⟨ada, "1 Main St", "080"⟩).response.status = 500 ∧
    (initiatePayment ⟨100, "PAY_1", 0, .threw⟩
      ⟨[lamp], [⟨50, 7, [⟨1, 2⟩]⟩], []⟩ ⟨ada, "1 Main St", "080"⟩).store.orders =
      [{ lampOrder .pending with createdAt := 0 }] := by
  decide

/-! ## C6: the order created by `initiatePayment` -/

/-- C8: a webhook request whose `verif-hash` header is missing or differs from
the configured secret is answered 401 whatever its payload; the handler issues
no store call, so no order lookup, and the store is left as it was. -/
theorem handleWebhook_bad_signature (cfg : Config) (now : Nat) (s : Store)
    (req : WebhookRequest) (hsig : req.signature = none ∨ req.signature ≠ cfg.secretHash) :
    (handleWebhook cfg now s req).response.status = 401 ∧
    (handleWebhook cfg now s req).trace = [] ∧
    (handleWebhook cfg now s req).store = s := by
  have hrej : signatureRejected cfg req.signature = true := by
    unfold signatureRejected
    cases hs : req.signature with
    | none => rfl
    | some sig =>
      rw [hs] at hsig
      have hne : some sig ≠ cfg.secretHash := by
        rcases hsig with h | h
        · cases h
        · exact h
      have hb : (cfg.secretHash != some sig) = true := by
        simpa [bne_iff_ne] using fun h => hne h.symm
      simp [hb]
  unfold handleWebhook
  simp [hrej, reply]

/-- Witness of C8: a wrong signature and then a missing one, on a request that
otherwise would complete the lamp order. -/
theorem handleWebhook_bad_signature_witness :
    handleWebhook sampleConfig 9 ⟨[lamp], [], [lampOrder .pending]⟩
        { chargeCompleted with signature := some "guess" } =
      ⟨reply 401 "", ⟨[lamp], [], [lampOrder .pending]⟩, []⟩ ∧
    (handleWebhook sampleConfig 9 ⟨[lamp], [], [lampOrder .pending]⟩
        { chargeCompleted with signature := none }).response.status = 401 :=
  ⟨by decide,
    (handleWebhook_bad_signature sampleConfig 9 ⟨[lamp], [], [lampOrder .pending]⟩
      { chargeCompleted with signature := none } (Or.inl rfl)).1⟩

/-! ## C9: acknowledged without mutation -/

/-- C9: a correctly signed webhook whose event is not `charge.completed`, or
which names an existing order but carries another amount than the order total
or a status other than successful, is answered 200 and leaves the whole store
(orders, products, carts) as it was. -/
theorem handleWebhook_acknowledges (cfg : Config) (now : Nat) (s : Store) (req : WebhookRequest)
    (hsig : signatureRejected cfg req.signature = false)
    (hcase : req.body.event ≠ some "charge.completed" ∨
      ∃ d o, req.body.data = some d ∧ Order.findOne s.orders d.tx_ref = some o ∧
        (d.amount ≠ o.totalAmount ∨ d.status ≠ "successful")) :
    (handleWebhook cfg now s req).response = reply 200 "" ∧
    (handleWebhook cfg now s req).store = s := by
  unfold handleWebhook
  by_cases hev : req.body.event = some "charge.completed"
  · rcases hcase with h | ⟨d, o, hd, ho, hmis⟩
    · exact absurd hev h
    · have hcond : ¬ (d.amount = o.totalAmount ∧ d.status = "successful") := by
        intro h
        rcases hmis with h1 | h2
        · exact h1 h.1
        · exact h2 h.2
      simp [hsig, hev, hd, ho, hcond]
  · simp [hsig, hev]

/-- Witness of C9: a correctly signed `charge.completed` for the lamp order
that reports 15 instead of the order total 20. -/
theorem handleWebhook_acknowledges_witness :
    (handleWebhook sampleConfig 9 ⟨[lamp], [⟨50, 7, [⟨1, 2⟩]⟩], [lampOrder .pending]⟩
      ⟨some "s3cret", ⟨some "charge.completed",
        some ⟨"PAY_1", 15, "successful", some "FLW-1"⟩⟩⟩).response = reply 200 "" ∧
    (handleWebhook sampleConfig 9 ⟨[lamp], [⟨50, 7, [⟨1, 2⟩]⟩], [lampOrder .pending]⟩
      ⟨some "s3cret", ⟨some "charge.completed",
        some ⟨"PAY_1", 15, "successful", some "FLW-1"⟩⟩⟩).store =
      ⟨[lamp], [⟨50, 7, [⟨1, 2⟩]⟩], [lampOrder .pending]⟩ :=
  handleWebhook_acknowledges sampleConfig 9 ⟨[lamp], [⟨50, 7, [⟨1, 2⟩]⟩], [lampOrder .pending]⟩
    ⟨some "s3cret", ⟨some "charge.completed", some ⟨"PAY_1", 15, "successful", some "FLW-1"⟩⟩⟩
    (by decide)
    (Or.inr ⟨⟨"PAY_1", 15, "successful", some "FLW-1"⟩, lampOrder .pending, rfl, by decide,
      Or.inl (by decide)⟩)

/-! ## C10: what the gateway gets back -/

theorem removeFirst_sublist {α : Type} (p : α → Bool) (l : List α) :
    List.Sublist (removeFirst p l) l := by
  induction l with
  | nil => exact List.Sublist.slnil
  | cons x xs ih =>
    unfold removeFirst
    split
    · exact List.sublist_cons_self x xs
    · exact List.Sublist.cons₂ x ih

theorem insert_some {orders orders1 : List Order} {o : Order}
    (h : Order.insert orders o = some orders1) :
    orders1 = orders ++ [o] ∧ o.valid = true ∧ ∀ x ∈ orders, x._id ≠ o._id := by
  unfold Order.insert at h
  split at h
  · rename_i hc
    injection h with h
    simp only [Bool.and_eq_true, Bool.not_eq_true', List.any_eq_false, beq_iff_eq] at hc
    exact ⟨h.symm, hc.1.1, fun x hx => hc.1.2 x hx⟩
  · cases h

theorem ordersOk_append (s : Store) (o : Order) (hok : s.ordersOk) (hvalid : o.valid = true)
    (hid : ∀ x ∈ s.orders, x._id ≠ o._id) (products : List Product) (carts : List Cart) :
    Store.ordersOk ⟨products, carts, s.orders ++ [o]⟩ := by
  constructor
  · show ((s.orders ++ [o]).map (fun o => o._id)).Nodup
    rw [List.map_append, List.nodup_append]
    refine ⟨hok.1, by simp, ?_⟩
    intro a ha hb
    simp only [List.map_cons, List.map_nil, List.mem_singleton] at hb
    obtain ⟨x, hx, hxa⟩ := List.mem_map.mp ha
    exact hid x hx (hxa.trans hb)
  · intro x hx
    rcases List.mem_append.mp hx with h | h
    · exact hok.2 x h
    · rw [List.mem_singleton.mp h]
      exact hvalid

theorem ordersOk_sublist (s : Store) (orders : List Order) (hok : s.ordersOk)
    (hsub : List.Sublist orders s.orders) (products : List Product) (carts : List Cart) :
    Store.ordersOk ⟨products, carts, orders⟩ :=
  ⟨List.Nodup.sublist (List.Sublist.map _ hsub) hok.1, fun x hx => hok.2 x (hsub.subset hx)⟩

theorem forall₂_ids (R : Order → Order → Prop) (hR : ∀ a b, R a b → b._id = a._id)
    {l1 l2 : List Order} (h : List.Forall₂ R l1 l2) :
    l2.map (fun o => o._id) = l1.map (fun o => o._id) := by
  induction h with
  | nil => rfl
  | cons hab _ ih => simp [List.map_cons, hR _ _ hab, ih]

theorem forall₂_valid (R : Order → Order → Prop) (hR : ∀ a b, R a b → b.items = a.items)
    {l1 l2 : List Order} (h : List.Forall₂ R l1 l2) (hall : ∀ o ∈ l1, o.valid = true) :
    ∀ o ∈ l2, o.valid = true := by
  induction h with
  | nil => intro o ho; cases ho
  | @cons a b l1 l2 hab _ ih =>
    intro o ho
    rcases List.mem_cons.mp ho with h1 | h1
    · have ha := hall a (List.mem_cons_self _ _)
      rw [h1]
      unfold Order.valid at ha ⊢
      rw [hR a b hab]
      exact ha
    · exact ih (fun x hx => hall x (List.mem_cons_of_mem _ hx)) o h1

theorem ordersOk_forall₂ (s : Store) (orders : List Order) (hok : s.ordersOk)
    (R : Order → Order → Prop) (hR : ∀ a b, R a b → b._id = a._id ∧ b.items = a.items)
    (h : List.Forall₂ R s.orders orders) (products : List Product) (carts : List Cart) :
    Store.ordersOk ⟨products, carts, orders⟩ := by
  constructor
  · show (orders.map (fun o => o._id)).Nodup
    rw [forall₂_ids R (fun a b hab => (hR a b hab).1) h]
    exact hok.1
  · exact forall₂_valid R (fun a b hab => (hR a b hab).2) h hok.2

theorem saveCart_orders (s : Store) (cart : Cart) (pre : List Effect) (message : String) :
    (saveCart s cart pre message).store.orders = s.orders := by
  unfold saveCart
  split <;> rfl

theorem addToCart_orders (cartId : ObjectId) (s : Store) (req : AddToCartRequest) :
    (addToCart cartId s req).store.orders = s.orders := by
  unfold addToCart
  simp only
  repeat' split
  all_goals first
    | rfl
    | exact saveCart_orders _ _ _ _

theorem updateCartItem_orders (s : Store) (req : UpdateCartItemRequest) :
    (updateCartItem s req).store.orders = s.orders := by
  unfold updateCartItem
  simp only
  repeat' split
  all_goals first
    | rfl
    | exact saveCart_orders _ _ _ _

theorem initiatePayment_ordersOk (env : InitiateEnv) (s : Store) (req : InitiateRequest)
    (hok : s.ordersOk) : (initiatePayment env s req).store.ordersOk := by
  unfold initiatePayment
  simp only
  split
  · exact hok
  · split
    · exact hok
    · split
      · exact hok
      · exact hok
      · split
        · exact hok
        · rename_i hins
          obtain ⟨h1, h2, h3⟩ := insert_some hins
          subst h1
          have happ := ordersOk_append s _ hok h2 h3 s.products s.carts
          split
          · exact happ
          · split
            · split
              · exact happ
              · exact happ
            · exact ordersOk_sublist _ _ happ (removeFirst_sublist _ _) _ _

/-- Every call of the API keeps the order collection well-formed: ids stay
unique and every stored order satisfies the order schema. -/
theorem step_ordersOk (cfg : Config) (s : Store) (c : Call) (hok : s.ordersOk) :
    (step cfg s c).store.ordersOk := by
  cases c with
  | addToCart cartId req =>
    have h : (step cfg s (.addToCart cartId req)).store.orders = s.orders :=
      addToCart_orders cartId s req
    exact ⟨by rw [h]; exact hok.1, by rw [h]; exact hok.2⟩
  | updateCartItem req =>
    have h : (step cfg s (.updateCartItem req)).store.orders = s.orders :=
      updateCartItem_orders s req
    exact ⟨by rw [h]; exact hok.1, by rw [h]; exact hok.2⟩
  | initiatePayment env req => exact initiatePayment_ordersOk env s req hok
  | verifyPayment env reference =>
    exact ordersOk_forall₂ s _ hok (fun a b => b._id = a._id ∧ b.items = a.items)
      (fun _ _ h => h)
      (verifyPayment_forall₂ _ (fun _ => ⟨rfl, rfl⟩) (fun _ _ _ => ⟨rfl, rfl⟩)
        (fun _ => ⟨rfl, rfl⟩) env s reference) _ _
  | handleWebhook now req =>
    exact ordersOk_forall₂ s _ hok (fun a b => b._id = a._id ∧ b.items = a.items)
      (fun _ _ h => h)
      (handleWebhook_forall₂ _ (fun _ => ⟨rfl, rfl⟩) (fun _ _ _ => ⟨rfl, rfl⟩) cfg now s req) _ _

/-- A run of calls from a well-formed order collection ends in one. -/
theorem run_ordersOk (cfg : Config) (calls : List Call) (s : Store) (hok : s.ordersOk) :
    (run cfg s calls).ordersOk := by
  induction calls generalizing s with
  | nil => exact hok
  | cons c cs ih => exact ih _ (step_ordersOk cfg s c hok)

/-! ## C13: checkout with an empty cart -/

/-- C13: when the caller has no cart, or a cart without items, `initiatePayment`
answers 400 with the message "Cart is empty" after the single cart lookup: it
hands no order to the store, calls no gateway, and leaves products, carts and
orders as they were. -/
theorem initiatePayment_empty_cart (env : InitiateEnv) (s : Store) (req : InitiateRequest)
    (hempty : ∀ cart, Cart.findOne s.carts req.user._id = some cart → cart.items = []) :
    (initiatePayment env s req).response = reply 400 "Cart is empty" ∧
    (initiatePayment env s req).store = s ∧
    (initiatePayment env s req).trace = [.cartFindOne req.user._id] ∧
    savedOrders (initiatePayment env s req).trace = [] := by
  have hout : initiatePayment env s req =
      ⟨reply 400 "Cart is empty", s, [.cartFindOne req.user._id]⟩ := by
    cases hc : Cart.findOne s.carts req.user._id with
    | none => simp only [initiatePayment, hc]
    | some cart =>
      have hlen : cart.items.length = 0 := by
        rw [hempty cart hc]
        rfl
      simp only [initiatePayment, hc, hlen, if_true]
  rw [hout]
  exact ⟨rfl, rfl, rfl, rfl⟩

/-- Witness of C13: a user with an emptied cart, and a user without any cart,
while the gateway would have accepted the payment. -/
theorem initiatePayment_empty_cart_witness :
    (initiatePayment ⟨100, "PAY_1", 0, linkOk⟩ ⟨[lamp], [⟨50, 7, []⟩], []⟩
      adaCheckout).response = reply 400 "Cart is empty" ∧
    (initiatePayment ⟨100, "PAY_1", 0, linkOk⟩ ⟨[lamp], [], []⟩ adaCheckout).trace =
      [.cartFindOne 7] :=
  ⟨(initiatePayment_empty_cart ⟨100, "PAY_1", 0, linkOk⟩ ⟨[lamp], [⟨50, 7, []⟩], []⟩
      adaCheckout (by decide)).1,
    (initiatePayment_empty_cart ⟨100, "PAY_1", 0, linkOk⟩ ⟨[lamp], [], []⟩
      adaCheckout (by decide)).2.2.1⟩

/-! ## C12: adding more than the stock -/

theorem mem_updateFirst {α : Type} (p : α → Bool) (f : α → α) (l : List α) (y : α)
    (h : y ∈ updateFirst p f l) : y ∈ l ∨ ∃ x ∈ l, y = f x := by
  induction l with
  | nil => cases h
  | cons x xs ih =>
    unfold updateFirst at h
    split at h
    · rcases List.mem_cons.mp h with h1 | h1
      · exact Or.inr ⟨x, List.mem_cons_self _ _, h1⟩
      · exact Or.inl (List.mem_cons_of_mem _ h1)
    · rcases List.mem_cons.mp h with h1 | h1
      · exact Or.inl (h1 ▸ List.mem_cons_self _ _)
      · rcases ih h1 with h2 | ⟨z, hz, hy⟩
        · exact Or.inl (List.mem_cons_of_mem _ h2)
        · exact Or.inr ⟨z, List.mem_cons_of_mem _ hz, hy⟩

theorem cartsOk_updateFirst (s : Store) (p : Cart → Bool) (f : Cart → Cart)
    (hid : ∀ x, (f x)._id = x._id)
    (hf : ∀ x ∈ s.carts, (f x).valid = true ∧ ((f x).items.map (fun i => i.productId)).Nodup)
    (hok : s.cartsOk) (products : List Product) (orders : List Order) :
    Store.cartsOk ⟨products, updateFirst p f s.carts, orders⟩ := by
  constructor
  · show ((updateFirst p f s.carts).map (fun c => c._id)).Nodup
    rw [updateFirst_map p f (fun c => c._id) hid]
    exact hok.1
  · intro c hc
    rcases mem_updateFirst p f s.carts c hc with h | ⟨x, hx, hcx⟩
    · exact hok.2 c h
    · rw [hcx]
      exact hf x hx

theorem saveCart_cartsOk (s : Store) (cart : Cart) (pre : List Effect) (message : String)
    (hok : s.cartsOk) (hlines : (cart.items.map (fun i => i.productId)).Nodup) :
    (saveCart s cart pre message).store.cartsOk := by
  unfold saveCart Cart.save
  by_cases hv : cart.valid = true
  · simp only [hv, if_true]
    exact cartsOk_updateFirst s _ (fun x => ⟨x._id, x.userId, cart.items⟩) (fun _ => by rfl)
      (fun _ _ => ⟨hv, hlines⟩) hok _ _
  · simp only [hv]
    exact hok

theorem setQuantity_products (items : List CartItem) (pid : ObjectId) (n : Int) :
    (setQuantity items pid n).map (fun i => i.productId) = items.map (fun i => i.productId) :=
  updateFirst_map _ _ _ (fun _ => by rfl) items

theorem insertCart_cartsOk (s : Store) (c : Cart) (carts1 : List Cart) (hok : s.cartsOk)
    (hlines : (c.items.map (fun i => i.productId)).Nodup)
    (hins : Cart.insert s.carts c = some carts1) (products : List Product)
    (orders : List Order) : Store.cartsOk ⟨products, carts1, orders⟩ := by
  unfold Cart.insert at hins
  split at hins
  · rename_i hc
    injection hins with hins
    subst hins
    simp only [Bool.and_eq_true, Bool.not_eq_true', List.any_eq_false, beq_iff_eq] at hc
    constructor
    · show ((s.carts ++ [c]).map (fun c => c._id)).Nodup
      rw [List.map_append, List.nodup_append]
      refine ⟨hok.1, by simp, ?_⟩
      intro a ha hb
      simp only [List.map_cons, List.map_nil, List.mem_singleton] at hb
      obtain ⟨x, hx, hxa⟩ := List.mem_map.mp ha
      exact hc.2 x hx (hxa.trans hb)
    · intro x hx
      rcases List.mem_append.mp hx with h | h
      · exact hok.2 x h
      · rw [List.mem_singleton.mp h]
        exact ⟨hc.1, hlines⟩
  · cases hins

theorem find_none_not_mem (items : List CartItem) (pid : ObjectId)
    (h : items.find? (fun i => i.productId == pid) = none) :
    pid ∉ items.map (fun i => i.productId) := by
  intro hmem
  obtain ⟨x, hx, hxp⟩ := List.mem_map.mp hmem
  have := List.find?_eq_none.mp h x hx
  simp [hxp] at this

theorem addToCart_cartsOk (cartId : ObjectId) (s : Store) (req : AddToCartRequest)
    (hok : s.cartsOk) : (addToCart cartId s req).store.cartsOk := by
  unfold addToCart
  simp only
  split
  · exact hok
  · split
    · exact hok
    · split
      · split
        · exact hok
        · rename_i hins
          exact insertCart_cartsOk s _ _ hok (by simp) hins _ _
      · rename_i cart hcart
        have hmem : cart ∈ s.carts := List.mem_of_find?_eq_some hcart
        split
        · split
          · exact hok
          · apply saveCart_cartsOk s _ _ _ hok
            show ((setQuantity cart.items _ _).map (fun i => i.productId)).Nodup
            rw [setQuantity_products]
            exact (hok.2 cart hmem).2
        · rename_i hnone
          apply saveCart_cartsOk s _ _ _ hok
          show ((cart.items ++ [_]).map (fun (i : CartItem) => i.productId)).Nodup
          rw [List.map_append, List.nodup_append]
          refine ⟨(hok.2 cart hmem).2, by simp, ?_⟩
          intro a ha hb
          simp only [List.map_cons, List.map_nil, List.mem_singleton] at hb
          exact find_none_not_mem cart.items req.productId hnone (hb ▸ ha)

theorem updateCartItem_cartsOk (s : Store) (req : UpdateCartItemRequest) (hok : s.cartsOk) :
    (updateCartItem s req).store.cartsOk := by
  unfold updateCartItem
  simp only
  split
  · exact hok
  · split
    · exact hok
    · split
      · exact hok
      · rename_i cart hcart
        have hmem : cart ∈ s.carts := List.mem_of_find?_eq_some hcart
        split
        · exact hok
        · apply saveCart_cartsOk s _ _ _ hok
          show ((setQuantity cart.items _ _).map (fun i => i.productId)).Nodup
          rw [setQuantity_products]
          exact (hok.2 cart hmem).2

theorem complete_cartsOk {s st : Store} {o : Order} {flw : Option String} {now : Nat}
    {t : List Effect} (hok : s.cartsOk) (hc : complete s o flw now = (some st, t)) :
    st.cartsOk := by
  unfold complete at hc
  cases hsave : Order.save s.orders (Order.markCompleted flw now o)
      (Order.markCompleted flw now) with
  | none => simp [hsave] at hc
  | some orders1 =>
    simp only [hsave, Prod.mk.injEq, Option.some.injEq] at hc
    rw [← hc.1]
    exact cartsOk_updateFirst s _ (fun c => ⟨c._id, c.userId, []⟩) (fun _ => by rfl)
      (fun _ _ => ⟨rfl, List.nodup_nil⟩) hok _ _

theorem markFailed_cartsOk (s : Store) (o : Order) (r : String) (hok : s.cartsOk) :
    (markFailed s o r).store.cartsOk := by
  cases hsave : Order.save s.orders (Order.markFailed o) Order.markFailed with
  | none =>
    simp only [markFailed, hsave]
    exact hok
  | some orders1 =>
    simp only [markFailed, hsave]
    exact hok

theorem verifyPayment_cartsOk (env : VerifyEnv) (s : Store) (r : String) (hok : s.cartsOk) :
    (verifyPayment env s r).store.cartsOk := by
  unfold verifyPayment
  repeat' split
  all_goals first
    | exact hok
    | exact markFailed_cartsOk s _ r hok
    | exact complete_cartsOk hok (by assumption)

theorem handleWebhook_cartsOk (cfg : Config) (now : Nat) (s : Store) (req : WebhookRequest)
    (hok : s.cartsOk) : (handleWebhook cfg now s req).store.cartsOk := by
  unfold handleWebhook
  repeat' split
  all_goals first
    | exact hok
    | exact complete_cartsOk hok (by assumption)

theorem initiatePayment_carts (env : InitiateEnv) (s : Store) (req : InitiateRequest) :
    (initiatePayment env s req).store.carts = s.carts := by
  unfold initiatePayment
  simp only
  repeat' split
  all_goals rfl

/-- Every call of the API keeps the cart collection well-formed: cart ids stay
unique, every stored cart satisfies the cart schema and has at most one line
per product. -/
theorem step_cartsOk (cfg : Config) (s : Store) (c : Call) (hok : s.cartsOk) :
    (step cfg s c).store.cartsOk := by
  cases c with
  | addToCart cartId req => exact addToCart_cartsOk cartId s req hok
  | updateCartItem req => exact updateCartItem_cartsOk s req hok
  | initiatePayment env req =>
    have h : (step cfg s (.initiatePayment env req)).store.carts = s.carts :=
      initiatePayment_carts env s req
    exact ⟨by rw [h]; exact hok.1, by rw [h]; exact hok.2⟩
  | verifyPayment env reference => exact verifyPayment_cartsOk env s reference hok
  | handleWebhook now req => exact handleWebhook_cartsOk cfg now s req hok

/-- A run of calls from a well-formed cart collection ends in one. -/
theorem run_cartsOk (cfg : Config) (calls : List Call) (s : Store) (hok : s.cartsOk) :
    (run cfg s calls).cartsOk := by
  induction calls generalizing s with
  | nil => exact hok
  | cons c cs ih => exact ih _ (step_cartsOk cfg s c hok)

end Shop
